import Mathlib

/-
Shallow embedding of the terminal file manager in src/main.py (class
FileManager).  Python strings are modelled as Lean String (character
comparisons by code point, as in Python), filesystem paths as lists of
path components (the empty list is the filesystem root "/"), and the
five-tuples (name, is_dir, size, mode, mtime) produced by the listing
code as the structure Entry.  The filesystem itself is an external
collaborator: directory listings are a function from a path to
Option (List Entry), where none models path.iterdir() raising
PermissionError, and the set of existing paths used by paste_file is a
plain list of paths.  Each method of FileManager becomes a pure function
from the old state (and the filesystem oracles) to the new state.
-/

/-- A filesystem path, as its list of components; [] is the root. -/
abbrev FPath := List String

/-- One listing entry: the tuple (entry.name, entry.is_dir(), st_size,
st_mode, st_mtime) built by refresh_files / refresh_panel_files. -/
structure Entry where
  name : String
  is_dir : Bool
  size : Nat
  mode : Nat
  mtime : Nat
deriving DecidableEq, Repr

/-- The pending clipboard operation kind: clipboard_action is the Python
string field with values 'copy' and 'cut' (or None, modelled by Option). -/
inductive ClipAction where
  | copy
  | cut
deriving DecidableEq, Repr

/-! ### Character-list string primitives

Python string comparison, substring test (the in operator) and
endswith, spelled out on lists of characters by code point. -/

/-- Lexicographic less-or-equal on character lists by code point:
Python string comparison as used by list.sort on the sort keys. -/
def lexLe : List Char → List Char → Bool
  | [], _ => true
  | _ :: _, [] => false
  | a :: as, b :: bs =>
    if a.toNat < b.toNat then true
    else if b.toNat < a.toNat then false
    else lexLe as bs

/-- q is a leading segment of t (helper for the substring test). -/
def leadEq : List Char → List Char → Bool
  | [], _ => true
  | _ :: _, [] => false
  | a :: as, b :: bs => a = b && leadEq as bs

/-- Python substring membership: q in t. -/
def occursIn : List Char → List Char → Bool
  | q, [] => q.isEmpty
  | q, c :: ts => leadEq q (c :: ts) || occursIn q ts

/-- Python str.endswith: t ends with q. -/
def endsWithStr (q t : List Char) : Bool :=
  leadEq q.reverse t.reverse

/-- Python str.lower, character by character (ASCII case mapping; the
names the claims involve are ASCII).  Built on the character list so
that proofs can evaluate it. -/
def strLower (s : String) : String := ⟨s.data.map Char.toLower⟩

/-- Python str.strip: drop leading and trailing whitespace. -/
def strStrip (s : String) : String :=
  ⟨((s.data.dropWhile Char.isWhitespace).reverse.dropWhile Char.isWhitespace).reverse⟩

theorem lexLe_total : ∀ as bs, (lexLe as bs || lexLe bs as) = true := by
  intro as
  induction as with
  | nil => intro bs; simp [lexLe]
  | cons a as ih =>
    intro bs
    cases bs with
    | nil => simp [lexLe]
    | cons b bs =>
      by_cases hab : a.toNat < b.toNat
      · simp [lexLe, hab]
      · by_cases hba : b.toNat < a.toNat
        · simp [lexLe, hab, hba, Nat.lt_asymm hba]
        · simp [lexLe, hab, hba, ih bs]

theorem lexLe_trans :
    ∀ as bs cs, lexLe as bs = true → lexLe bs cs = true → lexLe as cs = true := by
  intro as
  induction as with
  | nil => intro bs cs _ _; simp [lexLe]
  | cons a as ih =>
    intro bs cs h1 h2
    cases bs with
    | nil => simp [lexLe] at h1
    | cons b bs =>
      cases cs with
      | nil => simp [lexLe] at h2
      | cons c cs =>
        simp only [lexLe] at h1 h2 ⊢
        by_cases hab : a.toNat < b.toNat
        · by_cases hbc : b.toNat < c.toNat
          · simp [Nat.lt_trans hab hbc]
          · by_cases hcb : c.toNat < b.toNat
            · simp [hbc, hcb] at h2
            · have hbec : b.toNat = c.toNat := Nat.le_antisymm (Nat.le_of_not_lt hcb) (Nat.le_of_not_lt hbc)
              simp [hbec ▸ hab]
        · by_cases hba : b.toNat < a.toNat
          · simp [hab, hba] at h1
          · have haeb : a.toNat = b.toNat := Nat.le_antisymm (Nat.le_of_not_lt hba) (Nat.le_of_not_lt hab)
            by_cases hbc : b.toNat < c.toNat
            · simp [haeb ▸ hbc]
            · by_cases hcb : c.toNat < b.toNat
              · simp [hbc, hcb] at h2
              · simp [hab, hba] at h1
                simp [hbc, hcb] at h2
                simp [haeb ▸ hbc, haeb ▸ hcb]
                exact ih bs cs h1 h2

/-! ### Directory listing

The shared listing block of refresh_files (single-panel branch) and
refresh_panel_files: drop hidden names unless show_hidden, then
entries.sort(key=lambda x: (not x[1], x[0].lower())). -/

/-- The sort comparison induced by the Python key
(not is_dir, name.lower()): tuple order, False < True on booleans. -/
def entry_le (a b : Entry) : Bool :=
  if (!a.is_dir) = (!b.is_dir) then
    lexLe (strLower a.name).data (strLower b.name).data
  else
    !b.is_dir

theorem entry_le_total : ∀ a b, (entry_le a b || entry_le b a) = true := by
  intro a b
  unfold entry_le
  by_cases h : (!a.is_dir) = (!b.is_dir)
  · simp [h, lexLe_total]
  · have h2 : ¬ (!b.is_dir) = (!a.is_dir) := fun hh => h hh.symm
    simp only [h, h2, if_neg]
    cases hb : b.is_dir <;> cases ha : a.is_dir <;> simp_all

theorem entry_le_trans :
    ∀ a b c, entry_le a b = true → entry_le b c = true → entry_le a c = true := by
  intro a b c h1 h2
  unfold entry_le at h1 h2 ⊢
  cases ha : a.is_dir <;> cases hb : b.is_dir <;> cases hc : c.is_dir <;>
    simp_all <;> exact lexLe_trans _ _ _ h1 h2

/-- entry_le as a decidable relation, for the sort. -/
def entry_rel (a b : Entry) : Prop := entry_le a b = true

instance : DecidableRel entry_rel := fun a b => instDecidableEqBool (entry_le a b) true

instance : IsTotal Entry entry_rel :=
  ⟨by
    intro a b
    have h := entry_le_total a b
    unfold entry_rel
    rcases Bool.or_eq_true_iff.mp h with h1 | h1
    · exact Or.inl h1
    · exact Or.inr h1⟩

instance : IsTrans Entry entry_rel := ⟨entry_le_trans⟩

/-- Hidden-name filtering followed by the sort: the body shared by
refresh_files and refresh_panel_files, taking the raw iterdir result.
Python list.sort is a stable sort under the key comparison entry_le;
a stable sort under a total preorder is unique, so the structurally
recursive insertion sort used here yields the very list it does. -/
def list_dir_entries (show_hidden : Bool) (raw : List Entry) : List Entry :=
  List.insertionSort entry_rel (raw.filter (fun e => show_hidden || !(leadEq ".".data e.name.data)))

/-- The ordering contract of a produced listing, as the spec states it:
directories precede files, and entries with the same is_dir flag are in
case-insensitive name order. -/
def listingOrdered (a b : Entry) : Prop :=
  (b.is_dir = true → a.is_dir = true) ∧
  (a.is_dir = b.is_dir → lexLe (strLower a.name).data (strLower b.name).data = true)

theorem list_dir_entries_pairwise (show_hidden : Bool) (raw : List Entry) :
    (list_dir_entries show_hidden raw).Pairwise listingOrdered := by
  have h := List.sorted_insertionSort entry_rel
    (raw.filter (fun e => show_hidden || !(leadEq ".".data e.name.data)))
  refine h.imp ?_
  intro a b hab
  unfold entry_rel entry_le at hab
  constructor
  · intro hbd
    by_contra had
    simp only [Bool.not_eq_true] at had
    simp [had, hbd] at hab
  · intro heq
    simpa [heq] using hab

/-! ### The FileManager state

One record per self.* field of the Python class that the navigation,
clipboard and search logic reads or writes (terminal-only fields such as
stdscr, message_time, cd_on_exit are outside the embedding).  The
panel_* parallel lists of length two become pairs indexed by
panel_get / panel_set. -/

structure FileManager where
  current_path : FPath
  selected_index : Nat
  scroll_offset : Nat
  files : List Entry
  show_hidden : Bool
  clipboard : Option (List FPath)
  clipboard_action : Option ClipAction
  message : String
  selected_files : Finset Nat
  dual_panel_mode : Bool
  active_panel : Nat
  panel_paths : FPath × FPath
  panel_selected_index : Nat × Nat
  panel_scroll_offset : Nat × Nat
  panel_files : List Entry × List Entry
  panel_selected_files : Finset Nat × Finset Nat
  search_mode : Bool
  search_query : String
  filter_mode : Bool
  filter_extension : String
  original_files : List Entry
deriving DecidableEq

/-- Read slot i of a two-slot panel array (0 = left, otherwise right). -/
def panel_get {α : Type} (p : α × α) (i : Nat) : α :=
  if i = 0 then p.1 else p.2

/-- Write slot i of a two-slot panel array. -/
def panel_set {α : Type} (p : α × α) (i : Nat) (x : α) : α × α :=
  if i = 0 then (x, p.2) else (p.1, x)

/-- A directory-listing view of the filesystem: the raw (unfiltered,
unsorted) iterdir result for a path, or none when iterdir raises
PermissionError on the directory itself. -/
abbrev ListFS := FPath → Option (List Entry)

/-- A placeholder entry (indexing a Python list out of range raises;
theorems reading an entry carry an in-bounds hypothesis instead). -/
def defaultEntry : Entry := ⟨"", false, 0, 0, 0⟩

/-- FileManager.refresh_panel_files: re-list one panel from its own
path, clamp that panel's selected index, clear that panel's
multi-selection.  A PermissionError while iterating keeps the empty
list and still clamps (the inner except in the source). -/
def refresh_panel_files (lfs : ListFS) (s : FileManager) (panel_idx : Nat) : FileManager :=
  let fl := match lfs (panel_get s.panel_paths panel_idx) with
    | none => []
    | some raw => list_dir_entries s.show_hidden raw
  let sel := if panel_get s.panel_selected_index panel_idx ≥ fl.length
             then fl.length - 1
             else panel_get s.panel_selected_index panel_idx
  { s with panel_files := panel_set s.panel_files panel_idx fl,
           panel_selected_index := panel_set s.panel_selected_index panel_idx sel,
           panel_selected_files := panel_set s.panel_selected_files panel_idx ∅ }

/-- FileManager.refresh_files.  Dual mode refreshes both panels and
rebinds files to the active panel.  Single mode re-lists current_path;
on PermissionError it sets files to the already-emptied list, shows
the message and returns early, skipping the clamp, the multi-select
clear and the search/filter reset; on success it clamps
selected_index, clears selected_files, and discards any active
search/filter state. -/
def refresh_files (lfs : ListFS) (s : FileManager) : FileManager :=
  if s.dual_panel_mode then
    let s1 := refresh_panel_files lfs s 0
    let s2 := refresh_panel_files lfs s1 1
    { s2 with files := panel_get s2.panel_files s2.active_panel }
  else
    match lfs s.current_path with
    | none => { s with files := [], message := "Permission denied" }
    | some raw =>
      let fl := list_dir_entries s.show_hidden raw
      let sel := if s.selected_index ≥ fl.length then fl.length - 1 else s.selected_index
      let s1 := { s with files := fl, selected_index := sel, selected_files := ∅ }
      if s.search_mode || s.filter_mode then
        { s1 with original_files := [], search_mode := false, filter_mode := false,
                  search_query := "", filter_extension := "" }
      else s1

/-- FileManager.sync_to_panels: copy the working fields into the
active panel's slots. -/
def sync_to_panels (s : FileManager) : FileManager :=
  { s with panel_paths := panel_set s.panel_paths s.active_panel s.current_path,
           panel_selected_index := panel_set s.panel_selected_index s.active_panel s.selected_index,
           panel_scroll_offset := panel_set s.panel_scroll_offset s.active_panel s.scroll_offset,
           panel_selected_files := panel_set s.panel_selected_files s.active_panel s.selected_files }

/-- FileManager.adjust_scroll, parameterized by the viewport height
(height - 3 in the source). -/
def adjust_scroll (visible_height : Nat) (s : FileManager) : FileManager :=
  let so := if s.selected_index < s.scroll_offset then s.selected_index
            else if s.selected_index ≥ s.scroll_offset + visible_height
            then s.selected_index - visible_height + 1
            else s.scroll_offset
  let s1 := { s with scroll_offset := so }
  if s1.dual_panel_mode then
    { s1 with panel_scroll_offset := panel_set s1.panel_scroll_offset s1.active_panel so }
  else s1

/-- FileManager.navigate_up. -/
def navigate_up (visible_height : Nat) (s : FileManager) : FileManager :=
  if s.selected_index > 0 then
    let s1 := { s with selected_index := s.selected_index - 1 }
    let s2 := if s1.dual_panel_mode then
                { s1 with panel_selected_index :=
                    panel_set s1.panel_selected_index s1.active_panel s1.selected_index }
              else s1
    adjust_scroll visible_height s2
  else s

/-- FileManager.navigate_down (the Python guard compares against
len(files) - 1, which is -1 on an empty listing; Nat subtraction gives
the same no-op behavior since selected_index is never negative). -/
def navigate_down (visible_height : Nat) (s : FileManager) : FileManager :=
  if s.selected_index < s.files.length - 1 then
    let s1 := { s with selected_index := s.selected_index + 1 }
    let s2 := if s1.dual_panel_mode then
                { s1 with panel_selected_index :=
                    panel_set s1.panel_selected_index s1.active_panel s1.selected_index }
              else s1
    adjust_scroll visible_height s2
  else s

/-- FileManager.navigate_left: go to the parent directory ([] is the
filesystem root, where the move is a no-op but the refresh still runs). -/
def navigate_left (lfs : ListFS) (s : FileManager) : FileManager :=
  let s1 := if s.dual_panel_mode then sync_to_panels s else s
  let s2 := if s1.current_path ≠ [] then
              { s1 with current_path := s1.current_path.dropLast,
                        selected_index := 0, scroll_offset := 0 }
            else s1
  let s3 := if s2.dual_panel_mode then
              { s2 with panel_paths := panel_set s2.panel_paths s2.active_panel s2.current_path,
                        panel_selected_index := panel_set s2.panel_selected_index s2.active_panel 0,
                        panel_scroll_offset := panel_set s2.panel_scroll_offset s2.active_panel 0 }
            else s2
  refresh_files lfs s3

/-- FileManager.navigate_right: enter the selected directory (probing
it with iterdir first; none from the oracle is the PermissionError
branch) or, on a file, hand it to xdg-open and only set the message. -/
def navigate_right (lfs : ListFS) (s : FileManager) : FileManager :=
  if s.files = [] then s
  else
    let s1 := if s.dual_panel_mode then sync_to_panels s else s
    let sf := s1.files.getD s1.selected_index defaultEntry
    if sf.is_dir then
      let new_path := s1.current_path ++ [sf.name]
      match lfs new_path with
      | none => { s1 with message := "Permission denied" }
      | some _ =>
        let s2 := { s1 with current_path := new_path, selected_index := 0, scroll_offset := 0 }
        let s3 := if s2.dual_panel_mode then
                    { s2 with panel_paths := panel_set s2.panel_paths s2.active_panel new_path,
                              panel_selected_index := panel_set s2.panel_selected_index s2.active_panel 0,
                              panel_scroll_offset := panel_set s2.panel_scroll_offset s2.active_panel 0 }
                  else s2
        refresh_files lfs s3
    else
      { s1 with message := "Opening " ++ sf.name ++ "..." }

/-- FileManager.toggle_selection (SPACE). -/
def toggle_selection (s : FileManager) : FileManager :=
  if s.files = [] ∨ s.selected_index ≥ s.files.length then s
  else
    let nm := (s.files.getD s.selected_index defaultEntry).name
    if s.selected_index ∈ s.selected_files then
      { s with selected_files := s.selected_files.erase s.selected_index,
               message := "Deselected: " ++ nm }
    else
      { s with selected_files := insert s.selected_index s.selected_files,
               message := "Selected: " ++ nm }

/-- FileManager.select_all: add every index of the current listing to
the multi-selection. -/
def select_all (s : FileManager) : FileManager :=
  let count := (Finset.range s.files.length \ s.selected_files).card
  { s with selected_files := s.selected_files ∪ Finset.range s.files.length,
           message := if count > 0 then
               "Selected " ++ toString count ++ " additional files"
             else "All files already selected" }

/-- FileManager.clear_selection. -/
def clear_selection (s : FileManager) : FileManager :=
  { s with selected_files := ∅,
           message := if s.selected_files.card > 0 then
               "Cleared " ++ toString s.selected_files.card ++ " selections"
             else "No files selected" }

/-! ### Search and filter overlay -/

/-- The per-entry keep test of the apply_search_filter loop: a
case-insensitive substring match in search mode, a case-insensitive
extension-suffix match in filter mode, nothing kept otherwise
(Python string truthiness is non-emptiness). -/
def keep_entry (s : FileManager) (e : Entry) : Bool :=
  if s.search_mode && !s.search_query.isEmpty then
    occursIn s.search_query.data (strLower e.name).data
  else if s.filter_mode && !s.filter_extension.isEmpty then
    endsWithStr s.filter_extension.data (strLower e.name).data
  else false

/-- FileManager.apply_search_filter: snapshot files into original_files
only when no snapshot is held yet, rebuild files from the snapshot
through keep_entry, reset cursor, scroll and multi-selection, and in
dual mode mirror the result into the active panel slots. -/
def apply_search_filter (s : FileManager) : FileManager :=
  let orig := if s.original_files.isEmpty then s.files else s.original_files
  let filtered := orig.filter (keep_entry s)
  let s1 := { s with original_files := orig, files := filtered,
                     selected_index := 0, scroll_offset := 0, selected_files := ∅ }
  if s1.dual_panel_mode then
    { s1 with panel_files := panel_set s1.panel_files s1.active_panel filtered,
              panel_selected_index := panel_set s1.panel_selected_index s1.active_panel 0,
              panel_scroll_offset := panel_set s1.panel_scroll_offset s1.active_panel 0,
              panel_selected_files := panel_set s1.panel_selected_files s1.active_panel ∅ }
  else s1

/-- FileManager.clear_search_filter: restore files from the snapshot
when one is held, drop the snapshot and every search/filter field,
reset cursor, scroll and multi-selection, mirroring into the active
panel in dual mode. -/
def clear_search_filter (s : FileManager) : FileManager :=
  let s1 := if !s.original_files.isEmpty then
              { s with files := s.original_files, original_files := [] }
            else s
  let s2 := { s1 with search_mode := false, filter_mode := false,
                      search_query := "", filter_extension := "",
                      selected_index := 0, scroll_offset := 0, selected_files := ∅ }
  let s3 := if s2.dual_panel_mode then
              { s2 with panel_files := panel_set s2.panel_files s2.active_panel s2.files,
                        panel_selected_index := panel_set s2.panel_selected_index s2.active_panel 0,
                        panel_scroll_offset := panel_set s2.panel_scroll_offset s2.active_panel 0,
                        panel_selected_files := panel_set s2.panel_selected_files s2.active_panel ∅ }
            else s2
  { s3 with message := "Search/filter cleared" }

/-- An overlay request, as committed by start_search / start_filter
after a non-blank dialog string. -/
inductive Overlay where
  | search (query : String)
  | filtre (extension : String)
deriving DecidableEq, Repr

/-- The commit paths of start_search and start_filter: store the
lowercased query (search) or the lowercased, stripped,
dot-prefixed extension (filter), flip the mode flags, then run
apply_search_filter. -/
def apply_overlay (o : Overlay) (s : FileManager) : FileManager :=
  match o with
  | .search q =>
    apply_search_filter
      { s with search_query := strLower q, search_mode := true, filter_mode := false }
  | .filtre e =>
    let fe := strStrip (strLower e)
    let fe := if leadEq ".".data fe.data then fe else "." ++ fe
    apply_search_filter
      { s with filter_extension := fe, filter_mode := true, search_mode := false }

/-! ### Clipboard paste -/

/-- basename of a path (source.name on a pathlib.Path). -/
def pbasename (p : FPath) : String := p.getLastD ""

/-- The per-source loop of paste_file, threading the set of existing
paths: an already-existing destination is recorded as a named conflict
and skipped, otherwise copy inserts the destination and cut moves the
source onto it; the success counter advances in both branches of the
action dispatch (a None action performs no filesystem change but still
counts, exactly as the Python dispatch falls through). -/
def paste_loop (action : Option ClipAction) (cwd : FPath) :
    List FPath → List FPath → Nat → List String → (List FPath × Nat × List String)
  | [], fsy, cnt, errs => (fsy, cnt, errs)
  | src :: rest, fsy, cnt, errs =>
    let dest := cwd ++ [pbasename src]
    if dest ∈ fsy then
      paste_loop action cwd rest fsy cnt (errs ++ [pbasename src ++ " already exists"])
    else
      match action with
      | some ClipAction.copy => paste_loop action cwd rest (dest :: fsy) (cnt + 1) errs
      | some ClipAction.cut => paste_loop action cwd rest (dest :: fsy.erase src) (cnt + 1) errs
      | none => paste_loop action cwd rest fsy (cnt + 1) errs

/-- FileManager.paste_file: empty clipboard reports and returns before
anything else; otherwise run the loop, clear the clipboard only after
a cut with at least one success, compose the status message (the
success line reads the already-updated action field, the error line
overwrites it, capped at three names), and refresh. -/
def paste_file (lfs : ListFS) (fsy : List FPath) (s : FileManager) :
    FileManager × List FPath :=
  if s.clipboard = none ∨ s.clipboard = some [] then
    ({ s with message := "Nothing to paste" }, fsy)
  else
    let sources := s.clipboard.getD []
    let r := paste_loop s.clipboard_action s.current_path sources fsy 0 []
    let fsy2 := r.1
    let cnt := r.2.1
    let errs := r.2.2
    let s1 := if s.clipboard_action = some ClipAction.cut ∧ cnt > 0 then
                { s with clipboard := none, clipboard_action := none }
              else s
    let s2 := if cnt > 0 then
                { s1 with message :=
                    (if s1.clipboard_action = some ClipAction.copy then "Copied" else "Moved")
                      ++ " " ++ toString cnt ++ " file(s)" }
              else s1
    let s3 := if errs ≠ [] then
                { s2 with message := "Errors: " ++ String.intercalate "; " (errs.take 3)
                            ++ (if errs.length > 3 then "..." else "") }
              else s2
    (refresh_files lfs s3, fsy2)

/-! ### Delete -/

/-- The filesystem view used by delete_file: one record per existing
path, with its is_dir flag and whether iterdir yields any child. -/
structure FsNode where
  path : FPath
  is_dir : Bool
  has_children : Bool
deriving DecidableEq, Repr

/-- Look up the record of a path. -/
def nodeFor (dfs : List FsNode) (p : FPath) : Option FsNode :=
  dfs.find? (fun n => n.path = p)

/-- pathlib Path.is_dir (false for a missing path). -/
def fsIsDir (dfs : List FsNode) (p : FPath) : Bool :=
  match nodeFor dfs p with
  | none => false
  | some n => n.is_dir

/-- any(path.iterdir()) on an existing directory. -/
def fsHasChildren (dfs : List FsNode) (p : FPath) : Bool :=
  match nodeFor dfs p with
  | none => false
  | some n => n.has_children

/-- p begins with the components of q. -/
def beginsWith : FPath → FPath → Bool
  | _, [] => true
  | [], _ :: _ => false
  | a :: as, b :: bs => a = b && beginsWith as bs

/-- Remove a path and everything below it (rmtree; unlink removes a
childless path the same way). -/
def fsDelete (dfs : List FsNode) (p : FPath) : List FsNode :=
  dfs.filter (fun n => !(beginsWith n.path p))

/-- The files_to_delete batch of FileManager.delete_file: the
multi-selection (stale indices dropped by the bounds guard) or the
single entry under the cursor.  Python iterates the selection set in
unspecified order; ascending order is used here, which only affects
the order of per-item error strings. -/
def files_to_delete (s : FileManager) : List (Nat × String × FPath) :=
  if s.selected_files ≠ ∅ then
    (s.selected_files.sort (· ≤ ·)).filterMap (fun idx =>
      if idx < s.files.length then
        let nm := (s.files.getD idx defaultEntry).name
        some (idx, nm, s.current_path ++ [nm])
      else none)
  else if s.files = [] ∨ s.selected_index ≥ s.files.length then []
  else
    let nm := (s.files.getD s.selected_index defaultEntry).name
    [(s.selected_index, nm, s.current_path ++ [nm])]

/-- FileManager.delete_file, with the two blocking keypresses passed
in as key codes (ord y = 121, ord Y = 89).  Anything but y/Y at the
first prompt cancels; when some targeted directory is non-empty,
anything but y/Y at the second prompt cancels the whole batch before
any deletion.  Per-item deletion failures are not modelled: every
delete in the executing branch succeeds. -/
def delete_file (lfs : ListFS) (dfs : List FsNode) (s : FileManager)
    (key1 key2 : Nat) : FileManager × List FsNode :=
  let targets := files_to_delete s
  if targets = [] then (s, dfs)
  else if key1 ≠ 121 ∧ key1 ≠ 89 then ({ s with message := "Delete cancelled" }, dfs)
  else
    let non_empty_dirs : List String :=
      (targets.filter (fun t => fsIsDir dfs t.2.2 && fsHasChildren dfs t.2.2)).map
        (fun t => t.2.1)
    if non_empty_dirs ≠ [] ∧ key2 ≠ 121 ∧ key2 ≠ 89 then
      ({ s with message := "Delete cancelled" }, dfs)
    else
      let dfs2 := targets.foldl (fun acc t => fsDelete acc t.2.2) dfs
      let s1 := { s with selected_files := ∅ }
      let s2 := if targets.length > 0 then
                  { s1 with message := "Deleted " ++ toString targets.length ++ " file(s)" }
                else s1
      let s3 := if s2.selected_index ≥ s2.files.length then
                  { s2 with selected_index := s2.files.length - 1 }
                else s2
      (refresh_files lfs s3, dfs2)

/-! ### Modal dialog input -/

/-- FileManager.get_dialog_input over a queue of key codes (27 ESC,
10/13/343 Enter, 263/127/8 Backspace, 260 Left, 261 Right, 262/1 Home,
360/5 End, 32..126 printable insert guarded by the length cap).  The
result is none when the queue runs out (the Python loop would still be
blocked waiting for a key), some none for an ESC cancellation, and
some (some cs) for a committed string of key codes. -/
def get_dialog_input (max_length : Nat) :
    List Nat → List Nat → Nat → Option (Option (List Nat))
  | [], _, _ => none
  | key :: rest, input_str, cursor_pos =>
    if key = 27 then some none
    else if key = 10 ∨ key = 13 ∨ key = 343 then some (some input_str)
    else if key = 263 ∨ key = 127 ∨ key = 8 then
      if cursor_pos > 0 then
        get_dialog_input max_length rest
          (input_str.take (cursor_pos - 1) ++ input_str.drop cursor_pos) (cursor_pos - 1)
      else get_dialog_input max_length rest input_str cursor_pos
    else if key = 260 then
      get_dialog_input max_length rest input_str
        (if cursor_pos > 0 then cursor_pos - 1 else cursor_pos)
    else if key = 261 then
      get_dialog_input max_length rest input_str
        (if cursor_pos < input_str.length then cursor_pos + 1 else cursor_pos)
    else if key = 262 ∨ key = 1 then get_dialog_input max_length rest input_str 0
    else if key = 360 ∨ key = 5 then
      get_dialog_input max_length rest input_str input_str.length
    else if 32 ≤ key ∧ key ≤ 126 then
      if input_str.length + 1 < max_length then
        get_dialog_input max_length rest
          (input_str.take cursor_pos ++ [key] ++ input_str.drop cursor_pos) (cursor_pos + 1)
      else get_dialog_input max_length rest input_str cursor_pos
    else get_dialog_input max_length rest input_str cursor_pos

/-- Whether the first terminating key (ESC or Enter) in a key queue is
ESC: the exact condition under which get_dialog_input cancels. -/
def esc_first : List Nat → Bool
  | [] => false
  | k :: rest =>
    if k = 27 then true
    else if k = 10 ∨ k = 13 ∨ k = 343 then false
    else esc_first rest

/-! ### Concrete fixtures -/

/-- A plain file entry for fixtures. -/
def fileEnt (nm : String) : Entry := ⟨nm, false, 1, 420, 5⟩

/-- A directory entry for fixtures. -/
def dirEnt (nm : String) : Entry := ⟨nm, true, 0, 420, 5⟩

/-- A quiescent single-panel state browsing /home/user with three
files and the cursor on the last one. -/
def sBase : FileManager :=
  { current_path := ["home", "user"]
    selected_index := 2
    scroll_offset := 0
    files := [fileEnt "a.mp3", fileEnt "b.txt", fileEnt "c.txt"]
    show_hidden := false
    clipboard := none
    clipboard_action := none
    message := ""
    selected_files := ∅
    dual_panel_mode := false
    active_panel := 0
    panel_paths := (["home", "user"], ["home", "user"])
    panel_selected_index := (0, 0)
    panel_scroll_offset := (0, 0)
    panel_files := ([], [])
    panel_selected_files := (∅, ∅)
    search_mode := false
    search_query := ""
    filter_mode := false
    filter_extension := ""
    original_files := [] }

/-! ### The claims -/

/-- C1.  The claim asserts that selected_index stays within
[0, max 0 (len files - 1)] after any cursor-move / refresh /
overlay operation, including a refresh whose listing fails with a
permission error and yields an empty listing.  The single-panel branch
of refresh_files empties files, shows the message and returns before
the clamp runs, so a panel whose cursor sat on index 2 keeps
selected_index = 2 over an empty listing: the invariant the claim
states (and that the clamp in the same function, and the dual-panel
refresh, otherwise maintains) is broken exactly in the permission
case the claim includes. -/
theorem c1_permission_refresh_breaks_index_bound :
    (refresh_files (fun _ => none) sBase).files.length = 0 ∧
    (refresh_files (fun _ => none) sBase).selected_index = 2 ∧
    ¬ ((refresh_files (fun _ => none) sBase).selected_index ≤
        max 0 ((refresh_files (fun _ => none) sBase).files.length - 1)) := by
  refine ⟨rfl, rfl, ?_⟩
  decide

/-- Either branch of the per-panel listing match is ordered. -/
theorem panel_listing_pairwise (o : Option (List Entry)) (sh : Bool) :
    (match o with
     | none => ([] : List Entry)
     | some raw => list_dir_entries sh raw).Pairwise listingOrdered := by
  cases o with
  | none => simp
  | some raw => exact list_dir_entries_pairwise sh raw

/-- C2.  Every listing a refresh produces — any path, any show_hidden
value, single or dual mode, including the empty listing of a
permission failure — is sorted by the key (not is_dir, lowercased
name): directories precede files and each group is in case-insensitive
name order.  The producing function is deterministic, so the order is
fixed for a fixed directory snapshot. -/
theorem c2_refresh_listing_sorted (lfs : ListFS) (s : FileManager) :
    ((refresh_files lfs s).files).Pairwise listingOrdered := by
  unfold refresh_files
  by_cases hd : s.dual_panel_mode = true
  · simp only [hd, if_true]
    unfold refresh_panel_files
    simp only [panel_get, panel_set, if_true, if_false]
    split
    · apply panel_listing_pairwise
    · apply panel_listing_pairwise
  · rw [if_neg hd]
    cases hl : lfs s.current_path with
    | none => simp
    | some raw =>
      dsimp only
      split
      · exact list_dir_entries_pairwise _ _
      · exact list_dir_entries_pairwise _ _

/-- A state with a search overlay already active: the full listing is
held in original_files and files shows the matching subset. -/
def sOverlayActive : FileManager :=
  { sBase with
      files := [fileEnt "a.mp3"]
      selected_index := 0
      search_mode := true
      search_query := "mp3"
      original_files := [fileEnt "a.mp3", fileEnt "b.txt", fileEnt "c.txt"] }

/-- C4, counterexample.  The claim quantifies over every panel state,
but when an overlay is already active apply_search_filter keeps the
old snapshot (the Python code only copies files into original_files
when original_files is falsy), so clear_search_filter brings back the
snapshot taken at the first application — not the entry list present
immediately before this applyOverlay, which was the filtered subset. -/
theorem c4_overlay_roundtrip_cex :
    (clear_search_filter (apply_overlay (Overlay.filtre ".txt") sOverlayActive)).files ≠
      sOverlayActive.files := by
  decide

/-- Apply-then-clear restores files whenever no snapshot was held. -/
theorem apply_clear_restores (t : FileManager) (ht : t.original_files = []) :
    (clear_search_filter (apply_search_filter t)).files = t.files := by
  unfold apply_search_filter clear_search_filter
  by_cases hf : t.files = []
  · by_cases hd : t.dual_panel_mode = true <;> simp [ht, hf, hd]
  · by_cases hd : t.dual_panel_mode = true <;> simp [ht, hf, hd]

/-- C4, amended.  Provided no overlay is active when applyOverlay is
called (original_files empty, which is exactly the no-snapshot state),
clearOverlay after applyOverlay(o) restores precisely the entry list
present immediately before the application; when a snapshot is already
held, what comes back is that first snapshot instead. -/
theorem c4_overlay_roundtrip (o : Overlay) (s : FileManager)
    (h : s.original_files = []) :
    (clear_search_filter (apply_overlay o s)).files = s.files := by
  cases o with
  | search q => exact apply_clear_restores _ h
  | filtre e => exact apply_clear_restores _ h

/-- C4 witness: a concrete overlay round-trip through a fresh panel. -/
theorem c4_overlay_roundtrip_witness :
    (clear_search_filter (apply_overlay (Overlay.search "b") sBase)).files = sBase.files :=
  c4_overlay_roundtrip (Overlay.search "b") sBase rfl

/-- The directory listing seen by the refresh counterexamples: the
browsed directory exists and holds the three unfiltered files. -/
def lfsHome : ListFS := fun p =>
  if p = ["home", "user"] then some [fileEnt "b.txt", fileEnt "a.mp3", fileEnt "c.txt"]
  else none

/-- C5, counterexample.  An F5 keypress runs refresh_files with the
path unchanged; in the single-panel branch the code ends by resetting
search_mode/filter_mode, the query and the snapshot whenever a
search or filter is active, so the overlay is discarded, not retained:
after the refresh the panel shows the full re-sorted listing. -/
theorem c5_f5_discards_overlay_cex :
    sOverlayActive.search_mode = true ∧
    (refresh_files lfsHome sOverlayActive).search_mode = false ∧
    (refresh_files lfsHome sOverlayActive).original_files = [] ∧
    (refresh_files lfsHome sOverlayActive).files ≠ sOverlayActive.files := by
  refine ⟨rfl, ?_, ?_, ?_⟩ <;> decide

/-- C5, amended.  A single-panel F5 refresh of a readable directory
with an active search/filter overlay discards the overlay: both mode
flags, the query, the extension and the snapshot are cleared and the
panel presents the full unfiltered listing of the unchanged path. -/
theorem c5_f5_refresh_discards_overlay (lfs : ListFS) (s : FileManager)
    (raw : List Entry) (hd : s.dual_panel_mode = false)
    (hl : lfs s.current_path = some raw)
    (hm : s.search_mode = true ∨ s.filter_mode = true) :
    (refresh_files lfs s).search_mode = false ∧
    (refresh_files lfs s).filter_mode = false ∧
    (refresh_files lfs s).search_query = "" ∧
    (refresh_files lfs s).filter_extension = "" ∧
    (refresh_files lfs s).original_files = [] ∧
    (refresh_files lfs s).files = list_dir_entries s.show_hidden raw ∧
    (refresh_files lfs s).current_path = s.current_path := by
  have hmb : (s.search_mode || s.filter_mode) = true := by
    rcases hm with h | h <;> simp [h]
  unfold refresh_files
  simp [hd, hl, hmb]

/-- C5 witness: the amended behavior at the concrete overlay state. -/
theorem c5_f5_refresh_discards_overlay_witness :
    (refresh_files lfsHome sOverlayActive).search_mode = false ∧
    (refresh_files lfsHome sOverlayActive).filter_mode = false ∧
    (refresh_files lfsHome sOverlayActive).search_query = "" ∧
    (refresh_files lfsHome sOverlayActive).filter_extension = "" ∧
    (refresh_files lfsHome sOverlayActive).original_files = [] ∧
    (refresh_files lfsHome sOverlayActive).files =
      list_dir_entries sOverlayActive.show_hidden
        [fileEnt "b.txt", fileEnt "a.mp3", fileEnt "c.txt"] ∧
    (refresh_files lfsHome sOverlayActive).current_path = sOverlayActive.current_path :=
  c5_f5_refresh_discards_overlay lfsHome sOverlayActive _ rfl rfl (Or.inl rfl)

/-- C10.  Pasting with a falsy clipboard (None, or a staged empty
list) reports the error and returns before anything else runs: the
whole state except the message — path, entries, selection, scroll,
clipboard — and the filesystem are exactly as before, and no refresh
happens. -/
theorem c10_paste_empty_clipboard (lfs : ListFS) (fsy : List FPath)
    (s : FileManager) (h : s.clipboard = none ∨ s.clipboard = some []) :
    paste_file lfs fsy s = ({ s with message := "Nothing to paste" }, fsy) := by
  unfold paste_file
  rw [if_pos h]

/-- C10 witness: pasting with an empty clipboard in the base state. -/
theorem c10_paste_empty_clipboard_witness :
    paste_file lfsHome [] sBase = ({ sBase with message := "Nothing to paste" }, []) :=
  c10_paste_empty_clipboard lfsHome [] sBase (Or.inl rfl)

/-! ### C3: per-panel independence in dual mode -/

/-- A dual-panel state: the left panel (active) browses /home/user,
the right panel browses /tmp with one file multi-selected. -/
def sDual : FileManager :=
  { sBase with
      selected_index := 0
      dual_panel_mode := true
      active_panel := 0
      panel_paths := (["home", "user"], ["tmp"])
      panel_selected_index := (0, 1)
      panel_scroll_offset := (0, 0)
      panel_files := ([fileEnt "a.mp3", fileEnt "b.txt", fileEnt "c.txt"],
                      [fileEnt "x.txt", fileEnt "y.txt"])
      panel_selected_files := (∅, {0}) }

/-- Listings for the dual-panel fixtures. -/
def lfsDual : ListFS := fun p =>
  if p = ["home", "user"] then some [fileEnt "b.txt", fileEnt "a.mp3", fileEnt "c.txt"]
  else if p = ["home"] then some [dirEnt "user"]
  else if p = ["tmp"] then some [fileEnt "x.txt", fileEnt "y.txt"]
  else none

/-- C3, counterexample.  Navigating the active panel to its parent
directory ends in refresh_files, which in dual mode refreshes both
panels, and refresh_panel_files clears the refreshed panel's
multi-selection — so a directory navigation on the active panel wipes
the inactive panel's multiSelected, contradicting the claim that the
inactive panel's state is completely unchanged. -/
theorem c3_inactive_panel_cex :
    sDual.panel_selected_files.2 = {0} ∧
    (navigate_left lfsDual sDual).panel_selected_files.2 ≠ sDual.panel_selected_files.2 := by
  constructor
  · rfl
  · decide

/-- The re-listing a dual refresh gives panel j. -/
def panel_fl (lfs : ListFS) (t : FileManager) (j : Nat) : List Entry :=
  match lfs (panel_get t.panel_paths j) with
  | none => []
  | some raw => list_dir_entries t.show_hidden raw

/-- The clamped index a dual refresh gives panel j. -/
def panel_clamp (lfs : ListFS) (t : FileManager) (j : Nat) : Nat :=
  if panel_get t.panel_selected_index j ≥ (panel_fl lfs t j).length
  then (panel_fl lfs t j).length - 1
  else panel_get t.panel_selected_index j

/-- In dual mode, refresh_files rewrites both panels to their
re-listed, clamped, selection-cleared form and rebinds files. -/
theorem refresh_files_dual_view (lfs : ListFS) (t : FileManager)
    (hd : t.dual_panel_mode = true) :
    refresh_files lfs t = { t with
      files := panel_get (panel_fl lfs t 0, panel_fl lfs t 1) t.active_panel,
      panel_files := (panel_fl lfs t 0, panel_fl lfs t 1),
      panel_selected_index := (panel_clamp lfs t 0, panel_clamp lfs t 1),
      panel_selected_files := ((∅ : Finset Nat), (∅ : Finset Nat)) } := by
  simp only [refresh_files, hd, if_true, refresh_panel_files, panel_fl, panel_clamp,
    panel_get, panel_set, if_pos rfl, one_ne_zero, if_false, if_neg]

/-- The observable state of panel i: path, entries, cursor, scroll,
multi-selection. -/
def inactive_view (s : FileManager) (i : Nat) :
    FPath × List Entry × Nat × Nat × Finset Nat :=
  (panel_get s.panel_paths i, panel_get s.panel_files i,
   panel_get s.panel_selected_index i, panel_get s.panel_scroll_offset i,
   panel_get s.panel_selected_files i)

/-- Panel i after a dual refresh: same path and scroll, re-listed
entries, clamped cursor, cleared multi-selection. -/
def refreshed_inactive_view (lfs : ListFS) (s : FileManager) (i : Nat) :
    FPath × List Entry × Nat × Nat × Finset Nat :=
  (panel_get s.panel_paths i, panel_fl lfs s i, panel_clamp lfs s i,
   panel_get s.panel_scroll_offset i, (∅ : Finset Nat))

theorem inactive_view_refresh (lfs : ListFS) (t : FileManager)
    (hd : t.dual_panel_mode = true) (j : Nat) :
    inactive_view (refresh_files lfs t) j = refreshed_inactive_view lfs t j := by
  rw [refresh_files_dual_view lfs t hd]
  by_cases hj : j = 0 <;>
    simp [inactive_view, refreshed_inactive_view, panel_get, panel_fl, panel_clamp, hj]

/-- C3, amended.  In dual mode the cursor-move and selection-mutation
commands leave the inactive panel completely unchanged, as the claim
says; but the directory-navigation commands end in refresh_files,
which refreshes both panels, so the inactive panel keeps its path and
scroll offset, has its entries re-listed from the filesystem and its
cursor clamped, and has its multi-selection cleared (navigate_right
leaves it fully unchanged only on the no-op and file/permission
branches). -/
theorem c3_inactive_panel_frame (vh : Nat) (lfs : ListFS) (s : FileManager)
    (hd : s.dual_panel_mode = true)
    (ha : s.active_panel = 0 ∨ s.active_panel = 1) :
    inactive_view (navigate_up vh s) (1 - s.active_panel) =
      inactive_view s (1 - s.active_panel) ∧
    inactive_view (navigate_down vh s) (1 - s.active_panel) =
      inactive_view s (1 - s.active_panel) ∧
    inactive_view (toggle_selection s) (1 - s.active_panel) =
      inactive_view s (1 - s.active_panel) ∧
    inactive_view (select_all s) (1 - s.active_panel) =
      inactive_view s (1 - s.active_panel) ∧
    inactive_view (clear_selection s) (1 - s.active_panel) =
      inactive_view s (1 - s.active_panel) ∧
    inactive_view (navigate_left lfs s) (1 - s.active_panel) =
      refreshed_inactive_view lfs s (1 - s.active_panel) ∧
    (inactive_view (navigate_right lfs s) (1 - s.active_panel) =
       inactive_view s (1 - s.active_panel) ∨
     inactive_view (navigate_right lfs s) (1 - s.active_panel) =
       refreshed_inactive_view lfs s (1 - s.active_panel)) := by
  have hup : inactive_view (navigate_up vh s) (1 - s.active_panel) =
      inactive_view s (1 - s.active_panel) := by
    unfold navigate_up adjust_scroll
    rcases ha with h | h <;>
      by_cases hs : s.selected_index > 0 <;>
      simp [inactive_view, panel_get, panel_set, hd, h, hs]
  have hdown : inactive_view (navigate_down vh s) (1 - s.active_panel) =
      inactive_view s (1 - s.active_panel) := by
    unfold navigate_down adjust_scroll
    rcases ha with h | h <;>
      by_cases hs : s.selected_index < s.files.length - 1 <;>
      simp [inactive_view, panel_get, panel_set, hd, h, hs]
  have htog : inactive_view (toggle_selection s) (1 - s.active_panel) =
      inactive_view s (1 - s.active_panel) := by
    unfold toggle_selection
    by_cases hg : s.files = [] ∨ s.selected_index ≥ s.files.length
    · simp [hg]
    · by_cases hm : s.selected_index ∈ s.selected_files <;>
        simp [inactive_view, hg, hm]
  have hsel : inactive_view (select_all s) (1 - s.active_panel) =
      inactive_view s (1 - s.active_panel) := by
    unfold select_all
    simp [inactive_view]
  have hclr : inactive_view (clear_selection s) (1 - s.active_panel) =
      inactive_view s (1 - s.active_panel) := by
    unfold clear_selection
    simp [inactive_view]
  have hleft : inactive_view (navigate_left lfs s) (1 - s.active_panel) =
      refreshed_inactive_view lfs s (1 - s.active_panel) := by
    unfold navigate_left
    rcases ha with h | h <;>
      by_cases hr : s.current_path ≠ [] <;>
      simp [refresh_files_dual_view, inactive_view, refreshed_inactive_view, sync_to_panels,
        panel_get, panel_set, panel_fl, panel_clamp, hd, h, hr]
  have hright : inactive_view (navigate_right lfs s) (1 - s.active_panel) =
      inactive_view s (1 - s.active_panel) ∨
      inactive_view (navigate_right lfs s) (1 - s.active_panel) =
      refreshed_inactive_view lfs s (1 - s.active_panel) := by
    by_cases hfe : s.files = []
    · left
      simp [navigate_right, hfe]
    · by_cases hsd : (s.files[s.selected_index]?.getD defaultEntry).is_dir = true
      · cases hl : lfs (s.current_path ++ [(s.files[s.selected_index]?.getD defaultEntry).name]) with
        | none =>
          left
          rcases ha with h | h <;>
            simp [navigate_right, inactive_view, sync_to_panels, panel_get, panel_set,
              hd, h, hfe, hsd, hl]
        | some raw =>
          right
          rcases ha with h | h <;>
            simp [navigate_right, refresh_files_dual_view, refreshed_inactive_view, inactive_view,
              sync_to_panels, panel_get, panel_set, panel_fl, panel_clamp,
              hd, h, hfe, hsd, hl]
      · left
        rcases ha with h | h <;>
          simp [navigate_right, inactive_view, sync_to_panels, panel_get, panel_set,
            hd, h, hfe, hsd]
  exact ⟨hup, hdown, htog, hsel, hclr, hleft, hright⟩

/-- C3 witness: the frame conditions at the concrete dual state. -/
theorem c3_inactive_panel_frame_witness :
    inactive_view (navigate_up 5 sDual) (1 - sDual.active_panel) =
      inactive_view sDual (1 - sDual.active_panel) ∧
    inactive_view (navigate_down 5 sDual) (1 - sDual.active_panel) =
      inactive_view sDual (1 - sDual.active_panel) ∧
    inactive_view (toggle_selection sDual) (1 - sDual.active_panel) =
      inactive_view sDual (1 - sDual.active_panel) ∧
    inactive_view (select_all sDual) (1 - sDual.active_panel) =
      inactive_view sDual (1 - sDual.active_panel) ∧
    inactive_view (clear_selection sDual) (1 - sDual.active_panel) =
      inactive_view sDual (1 - sDual.active_panel) ∧
    inactive_view (navigate_left lfsDual sDual) (1 - sDual.active_panel) =
      refreshed_inactive_view lfsDual sDual (1 - sDual.active_panel) ∧
    (inactive_view (navigate_right lfsDual sDual) (1 - sDual.active_panel) =
       inactive_view sDual (1 - sDual.active_panel) ∨
     inactive_view (navigate_right lfsDual sDual) (1 - sDual.active_panel) =
       refreshed_inactive_view lfsDual sDual (1 - sDual.active_panel)) :=
  c3_inactive_panel_frame 5 lfsDual sDual rfl (Or.inl rfl)

/-! ### C6 and C7: paste conflict policy and clipboard clearing -/

/-- Splitting a list by a Boolean test preserves its length. -/
theorem length_filter_split {α : Type} (l : List α) (p : α → Bool) :
    (l.filter (fun x => !(p x))).length + (l.filter p).length = l.length := by
  induction l with
  | nil => simp
  | cons a t ih =>
    cases h : p a <;> simp [h] <;> omega

/-- What the copy-paste loop computes for a batch of staged paths with
pairwise-distinct basenames: the conflicts are exactly the sources
whose destination already existed when the paste started, each
reported by name and skipped; every other source is counted and its
destination added to the filesystem; nothing already present is
removed. -/
theorem paste_loop_copy_spec (cwd : FPath) :
    ∀ (ps fsy : List FPath) (cnt : Nat) (errs : List String),
      (ps.map pbasename).Nodup →
      (paste_loop (some ClipAction.copy) cwd ps fsy cnt errs).2.1 =
          cnt + (ps.filter (fun p => !decide (cwd ++ [pbasename p] ∈ fsy))).length ∧
      (paste_loop (some ClipAction.copy) cwd ps fsy cnt errs).2.2 =
          errs ++ (ps.filter (fun p => decide (cwd ++ [pbasename p] ∈ fsy))).map
            (fun p => pbasename p ++ " already exists") ∧
      (∀ x ∈ fsy, x ∈ (paste_loop (some ClipAction.copy) cwd ps fsy cnt errs).1) ∧
      (∀ p ∈ ps, cwd ++ [pbasename p] ∉ fsy →
        cwd ++ [pbasename p] ∈ (paste_loop (some ClipAction.copy) cwd ps fsy cnt errs).1) := by
  intro ps
  induction ps with
  | nil =>
    intro fsy cnt errs _
    simp [paste_loop]
  | cons p rest ih =>
    intro fsy cnt errs hnd
    have hnd1 := hnd
    rw [List.map_cons, List.nodup_cons] at hnd1
    have hpnot : pbasename p ∉ rest.map pbasename := hnd1.1
    have hnd2 : (rest.map pbasename).Nodup := hnd1.2
    by_cases hmem : cwd ++ [pbasename p] ∈ fsy
    · obtain ⟨ih1, ih2, ih3, ih4⟩ :=
        ih fsy cnt (errs ++ [pbasename p ++ " already exists"]) hnd2
      refine ⟨?_, ?_, ?_, ?_⟩
      · simpa [paste_loop, hmem, List.filter_cons] using ih1
      · simpa [paste_loop, hmem, List.filter_cons] using ih2
      · intro x hx
        simpa [paste_loop, hmem] using ih3 x hx
      · intro q hq hqnot
        rcases List.mem_cons.mp hq with rfl | hq2
        · exact absurd hmem hqnot
        · simpa [paste_loop, hmem] using ih4 q hq2 hqnot
    · obtain ⟨ih1, ih2, ih3, ih4⟩ :=
        ih ((cwd ++ [pbasename p]) :: fsy) (cnt + 1) errs hnd2
      have hneq : ∀ q ∈ rest, cwd ++ [pbasename q] ≠ cwd ++ [pbasename p] := by
        intro q hq h
        have hb : pbasename q = pbasename p := by
          have h2 := List.append_cancel_left h
          simpa using h2
        exact hpnot (hb ▸ List.mem_map_of_mem pbasename hq)
      have hcong : ∀ q ∈ rest,
          (decide (cwd ++ [pbasename q] ∈ (cwd ++ [pbasename p]) :: fsy)) =
          (decide (cwd ++ [pbasename q] ∈ fsy)) := by
        intro q hq
        simp [List.mem_cons, hneq q hq]
      have hfc1 : rest.filter
            (fun q => !decide (cwd ++ [pbasename q] ∈ (cwd ++ [pbasename p]) :: fsy)) =
          rest.filter (fun q => !decide (cwd ++ [pbasename q] ∈ fsy)) :=
        List.filter_congr (fun q hq => by rw [hcong q hq])
      have hfc2 : rest.filter
            (fun q => decide (cwd ++ [pbasename q] ∈ (cwd ++ [pbasename p]) :: fsy)) =
          rest.filter (fun q => decide (cwd ++ [pbasename q] ∈ fsy)) :=
        List.filter_congr (fun q hq => hcong q hq)
      refine ⟨?_, ?_, ?_, ?_⟩
      · rw [hfc1] at ih1
        simp only [paste_loop, if_neg hmem] at ih1 ⊢
        rw [ih1]
        simp [List.filter_cons, hmem]
        omega
      · rw [hfc2] at ih2
        simp only [paste_loop, if_neg hmem] at ih2 ⊢
        rw [ih2]
        simp [List.filter_cons, hmem]
      · intro x hx
        simp only [paste_loop, if_neg hmem]
        exact ih3 x (List.mem_cons_of_mem _ hx)
      · intro q hq hqnot
        rcases List.mem_cons.mp hq with rfl | hq2
        · simp only [paste_loop, if_neg hmem]
          exact ih3 _ (List.mem_cons_self _ _)
        · simp only [paste_loop, if_neg hmem]
          have hqnot2 : cwd ++ [pbasename q] ∉ (cwd ++ [pbasename p]) :: fsy := by
            simp [List.mem_cons, hneq q hq2, hqnot]
          exact ih4 q hq2 hqnot2

/-- refresh_files never touches the clipboard. -/
theorem refresh_files_clipboard (lfs : ListFS) (t : FileManager) :
    (refresh_files lfs t).clipboard = t.clipboard := by
  by_cases hdd : t.dual_panel_mode = true
  · rw [refresh_files_dual_view lfs t hdd]
  · unfold refresh_files
    rw [if_neg hdd]
    cases lfs t.current_path with
    | none => rfl
    | some raw =>
      dsimp only
      split <;> rfl

/-- refresh_files never touches the clipboard action. -/
theorem refresh_files_clipboard_action (lfs : ListFS) (t : FileManager) :
    (refresh_files lfs t).clipboard_action = t.clipboard_action := by
  by_cases hdd : t.dual_panel_mode = true
  · rw [refresh_files_dual_view lfs t hdd]
  · unfold refresh_files
    rw [if_neg hdd]
    cases lfs t.current_path with
    | none => rfl
    | some raw =>
      dsimp only
      split <;> rfl

/-- C6.  For a copy-paste of a staged batch (distinct basenames), each
staged path whose destination current_path/basename already exists is
individually skipped and reported as a named conflict, all others are
pasted (their destinations appear in the filesystem afterwards), a
conflict never aborts the batch — pasted plus conflicts accounts for
every staged item — and the clipboard stays populated with action
copy. -/
theorem c6_paste_conflicts (lfs : ListFS) (fsy : List FPath) (s : FileManager)
    (ps : List FPath) (hc : s.clipboard = some ps) (hne : ps ≠ [])
    (hact : s.clipboard_action = some ClipAction.copy)
    (hnd : (ps.map pbasename).Nodup) :
    (paste_loop (some ClipAction.copy) s.current_path ps fsy 0 []).2.1 +
        (paste_loop (some ClipAction.copy) s.current_path ps fsy 0 []).2.2.length =
      ps.length ∧
    (paste_loop (some ClipAction.copy) s.current_path ps fsy 0 []).2.2 =
      (ps.filter (fun p => decide (s.current_path ++ [pbasename p] ∈ fsy))).map
        (fun p => pbasename p ++ " already exists") ∧
    (paste_loop (some ClipAction.copy) s.current_path ps fsy 0 []).2.1 =
      (ps.filter (fun p => !decide (s.current_path ++ [pbasename p] ∈ fsy))).length ∧
    (∀ p ∈ ps, s.current_path ++ [pbasename p] ∉ fsy →
      s.current_path ++ [pbasename p] ∈ (paste_file lfs fsy s).2) ∧
    (paste_file lfs fsy s).1.clipboard = some ps ∧
    (paste_file lfs fsy s).1.clipboard_action = some ClipAction.copy := by
  obtain ⟨h1, h2, h3, h4⟩ := paste_loop_copy_spec s.current_path ps fsy 0 [] hnd
  simp only [Nat.zero_add] at h1
  simp only [List.nil_append] at h2
  have hfalsy : ¬(s.clipboard = none ∨ s.clipboard = some []) := by
    rw [hc]
    simp [hne]
  have hsrc : s.clipboard.getD [] = ps := by rw [hc]; rfl
  have hpf : paste_file lfs fsy s =
      (let r := paste_loop s.clipboard_action s.current_path (s.clipboard.getD []) fsy 0 []
       let s1 := if s.clipboard_action = some ClipAction.cut ∧ r.2.1 > 0 then
                   { s with clipboard := none, clipboard_action := none }
                 else s
       let s2 := if r.2.1 > 0 then
                   { s1 with message :=
                       (if s1.clipboard_action = some ClipAction.copy then "Copied" else "Moved")
                         ++ " " ++ toString r.2.1 ++ " file(s)" }
                 else s1
       let s3 := if r.2.2 ≠ [] then
                   { s2 with message := "Errors: " ++ String.intercalate "; " (r.2.2.take 3)
                               ++ (if r.2.2.length > 3 then "..." else "") }
                 else s2
       (refresh_files lfs s3, r.1)) := by
    unfold paste_file
    rw [if_neg hfalsy]
  rw [hsrc, hact] at hpf
  have hcutfalse : ¬(some ClipAction.copy = some ClipAction.cut ∧
      (paste_loop (some ClipAction.copy) s.current_path ps fsy 0 []).2.1 > 0) := by
    rintro ⟨h, -⟩
    exact ClipAction.noConfusion (Option.some.inj h)
  refine ⟨?_, h2, h1, ?_, ?_, ?_⟩
  · rw [h1, h2]
    have := length_filter_split ps (fun p => decide (s.current_path ++ [pbasename p] ∈ fsy))
    simp only [List.length_map]
    omega
  · intro p hp hnot
    rw [hpf]
    dsimp only
    exact h4 p hp hnot
  · rw [hpf]
    dsimp only
    rw [if_neg hcutfalse]
    rw [refresh_files_clipboard]
    split <;> (try split) <;> simp [hc]
  · rw [hpf]
    dsimp only
    rw [if_neg hcutfalse]
    rw [refresh_files_clipboard_action]
    split <;> (try split) <;> simp [hact]

/-- A clipboard staged for copy with two files; one of them collides
with an existing file in the current directory. -/
def sPasteCopy : FileManager :=
  { sBase with
      clipboard := some [["docs", "one.txt"], ["docs", "two.txt"]]
      clipboard_action := some ClipAction.copy }

/-- The paths existing before the paste: one.txt already sits in the
destination directory /home/user. -/
def fsyPaste : List FPath :=
  [["home", "user", "one.txt"], ["docs", "one.txt"], ["docs", "two.txt"]]

/-- C6 witness: the spec scenario — two staged files, one conflict,
one actual copy, clipboard still populated with action copy. -/
theorem c6_paste_conflicts_witness :
    (paste_loop (some ClipAction.copy) sPasteCopy.current_path
        [["docs", "one.txt"], ["docs", "two.txt"]] fsyPaste 0 []).2.1 +
      (paste_loop (some ClipAction.copy) sPasteCopy.current_path
        [["docs", "one.txt"], ["docs", "two.txt"]] fsyPaste 0 []).2.2.length = 2 ∧
    (paste_loop (some ClipAction.copy) sPasteCopy.current_path
        [["docs", "one.txt"], ["docs", "two.txt"]] fsyPaste 0 []).2.2 =
      ([["docs", "one.txt"], ["docs", "two.txt"]].filter
          (fun p => decide (sPasteCopy.current_path ++ [pbasename p] ∈ fsyPaste))).map
        (fun p => pbasename p ++ " already exists") ∧
    (paste_loop (some ClipAction.copy) sPasteCopy.current_path
        [["docs", "one.txt"], ["docs", "two.txt"]] fsyPaste 0 []).2.1 =
      ([["docs", "one.txt"], ["docs", "two.txt"]].filter
          (fun p => !decide (sPasteCopy.current_path ++ [pbasename p] ∈ fsyPaste))).length ∧
    (∀ p ∈ [["docs", "one.txt"], ["docs", "two.txt"]],
      sPasteCopy.current_path ++ [pbasename p] ∉ fsyPaste →
      sPasteCopy.current_path ++ [pbasename p] ∈ (paste_file lfsHome fsyPaste sPasteCopy).2) ∧
    (paste_file lfsHome fsyPaste sPasteCopy).1.clipboard =
      some [["docs", "one.txt"], ["docs", "two.txt"]] ∧
    (paste_file lfsHome fsyPaste sPasteCopy).1.clipboard_action = some ClipAction.copy :=
  c6_paste_conflicts lfsHome fsyPaste sPasteCopy
    [["docs", "one.txt"], ["docs", "two.txt"]] rfl (by decide) rfl (by decide)

/-- The number of items the paste loop would report as pasted, zero
when the clipboard is falsy. -/
def pasted_count (fsy : List FPath) (s : FileManager) : Nat :=
  if s.clipboard = none ∨ s.clipboard = some [] then 0
  else (paste_loop s.clipboard_action s.current_path (s.clipboard.getD []) fsy 0 []).2.1

/-- A message-only conditional update never changes the clipboard. -/
theorem ite_message_clipboard (c : Prop) [Decidable c] (x : FileManager) (m : String) :
    (if c then { x with message := m } else x).clipboard = x.clipboard := by
  split <;> rfl

/-- A message-only conditional update never changes the clipboard action. -/
theorem ite_message_clipboard_action (c : Prop) [Decidable c] (x : FileManager) (m : String) :
    (if c then { x with message := m } else x).clipboard_action = x.clipboard_action := by
  split <;> rfl

/-- C7.  After any paste, the clipboard (and its action) is cleared
exactly when the staged action was cut and at least one item was
pasted; with action copy, or a cut where nothing succeeded, or an
empty clipboard, both persist unchanged. -/
theorem c7_cut_clears_clipboard_iff (lfs : ListFS) (fsy : List FPath) (s : FileManager) :
    (paste_file lfs fsy s).1.clipboard =
      (if s.clipboard_action = some ClipAction.cut ∧ 0 < pasted_count fsy s
       then none else s.clipboard) ∧
    (paste_file lfs fsy s).1.clipboard_action =
      (if s.clipboard_action = some ClipAction.cut ∧ 0 < pasted_count fsy s
       then none else s.clipboard_action) := by
  unfold paste_file pasted_count
  by_cases hfalsy : s.clipboard = none ∨ s.clipboard = some []
  · rw [if_pos hfalsy]
    simp [hfalsy]
  · rw [if_neg hfalsy]
    dsimp only
    rw [if_neg hfalsy]
    by_cases hcut : s.clipboard_action = some ClipAction.cut ∧
        (paste_loop s.clipboard_action s.current_path (s.clipboard.getD []) fsy 0 []).2.1 > 0
    · have hcut2 : s.clipboard_action = some ClipAction.cut ∧
          0 < (paste_loop s.clipboard_action s.current_path (s.clipboard.getD []) fsy 0 []).2.1 :=
        ⟨hcut.1, hcut.2⟩
      constructor
      · rw [refresh_files_clipboard, ite_message_clipboard, ite_message_clipboard,
          if_pos hcut, if_pos hcut2]
      · rw [refresh_files_clipboard_action, ite_message_clipboard_action,
          ite_message_clipboard_action, if_pos hcut, if_pos hcut2]
    · have hcut2 : ¬(s.clipboard_action = some ClipAction.cut ∧
          0 < (paste_loop s.clipboard_action s.current_path (s.clipboard.getD []) fsy 0 []).2.1) :=
        fun h => hcut ⟨h.1, h.2⟩
      constructor
      · rw [refresh_files_clipboard, ite_message_clipboard, ite_message_clipboard,
          if_neg hcut, if_neg hcut2]
      · rw [refresh_files_clipboard_action, ite_message_clipboard_action,
          ite_message_clipboard_action, if_neg hcut, if_neg hcut2]

/-! ### C8: delete confirmation -/

/-- C8.  When the first confirmation was given (y/Y), some targeted
directory is non-empty, and the second (recursive) confirmation
keypress is anything but y/Y, the entire batch is cancelled before any
deletion: the filesystem and the whole panel state are returned
unchanged except for the cancellation message. -/
theorem c8_recursive_decline_cancels (lfs : ListFS) (dfs : List FsNode)
    (s : FileManager) (key1 key2 : Nat)
    (h1 : key1 = 121 ∨ key1 = 89)
    (hne : ∃ t ∈ files_to_delete s,
      fsIsDir dfs t.2.2 = true ∧ fsHasChildren dfs t.2.2 = true)
    (h2 : key2 ≠ 121 ∧ key2 ≠ 89) :
    delete_file lfs dfs s key1 key2 = ({ s with message := "Delete cancelled" }, dfs) := by
  obtain ⟨t, ht, hdir, hch⟩ := hne
  have htne : files_to_delete s ≠ [] := by
    intro h
    rw [h] at ht
    exact List.not_mem_nil t ht
  have hk1 : ¬(key1 ≠ 121 ∧ key1 ≠ 89) := by
    rcases h1 with h | h <;> simp [h]
  have hmemf : t ∈ (files_to_delete s).filter
      (fun t => fsIsDir dfs t.2.2 && fsHasChildren dfs t.2.2) :=
    List.mem_filter.mpr ⟨ht, by simp [hdir, hch]⟩
  have hnem : ((files_to_delete s).filter
      (fun t => fsIsDir dfs t.2.2 && fsHasChildren dfs t.2.2)).map (fun t => t.2.1) ≠ [] := by
    intro hmap
    rw [List.map_eq_nil_iff] at hmap
    rw [hmap] at hmemf
    exact List.not_mem_nil t hmemf
  have hcond : (((files_to_delete s).filter
      (fun t => fsIsDir dfs t.2.2 && fsHasChildren dfs t.2.2)).map (fun t => t.2.1) ≠ []) ∧
      key2 ≠ 121 ∧ key2 ≠ 89 := ⟨hnem, h2.1, h2.2⟩
  unfold delete_file
  dsimp only
  rw [if_neg htne, if_neg hk1, if_pos hcond]

/-- The delete fixture: the cursor sits on a non-empty directory. -/
def sDel : FileManager :=
  { sBase with files := [dirEnt "proj", fileEnt "a.mp3"], selected_index := 0 }

/-- The filesystem view for the delete fixture: proj is a directory
with children. -/
def dfsDel : List FsNode :=
  [⟨["home", "user", "proj"], true, true⟩, ⟨["home", "user", "a.mp3"], false, false⟩]

/-- C8 witness: confirming with y, then declining the recursive
confirmation with n, leaves state and filesystem untouched. -/
theorem c8_recursive_decline_cancels_witness :
    delete_file lfsHome dfsDel sDel 121 110 =
      ({ sDel with message := "Delete cancelled" }, dfsDel) :=
  c8_recursive_decline_cancels lfsHome dfsDel sDel 121 110 (Or.inl rfl)
    ⟨(0, "proj", ["home", "user", "proj"]), by decide⟩ (by decide)

/-! ### C9: dialog input safety -/

/-- The invariant run of get_dialog_input: starting from a printable
buffer shorter than the cap, any terminating run cancels exactly when
the first ESC/Enter key seen is ESC, and any committed string is
printable ASCII and strictly shorter than max_length. -/
theorem get_dialog_input_go (max_length : Nat) :
    ∀ (keys : List Nat) (input_str : List Nat) (cursor_pos : Nat),
      (∀ c ∈ input_str, 32 ≤ c ∧ c ≤ 126) → input_str.length < max_length →
      ∀ r, get_dialog_input max_length keys input_str cursor_pos = some r →
        (r = none ↔ esc_first keys = true) ∧
        (∀ cs, r = some cs → (∀ c ∈ cs, 32 ≤ c ∧ c ≤ 126) ∧ cs.length < max_length) := by
  intro keys
  induction keys with
  | nil =>
    intro input_str cursor_pos hinv hlen r hr
    simp [get_dialog_input] at hr
  | cons key rest ih =>
    intro input_str cursor_pos hinv hlen r hr
    simp only [get_dialog_input] at hr
    by_cases h27 : key = 27
    · rw [if_pos h27] at hr
      have hrn : r = none := (Option.some.inj hr).symm
      subst hrn
      refine ⟨by simp [esc_first, h27], ?_⟩
      intro cs hcs
      exact absurd hcs (by simp)
    · rw [if_neg h27] at hr
      by_cases hent : key = 10 ∨ key = 13 ∨ key = 343
      · rw [if_pos hent] at hr
        have hrs : r = some input_str := (Option.some.inj hr).symm
        subst hrs
        refine ⟨?_, ?_⟩
        · constructor
          · intro h
            exact absurd h (by simp)
          · intro h
            rw [esc_first, if_neg h27, if_pos hent] at h
            exact absurd h (by simp)
        · intro cs hcs
          have : cs = input_str := (Option.some.inj hcs).symm
          subst this
          exact ⟨hinv, hlen⟩
      · rw [if_neg hent] at hr
        have hesc : esc_first (key :: rest) = esc_first rest := by
          rw [esc_first, if_neg h27, if_neg hent]
        rw [hesc]
        by_cases hbs : key = 263 ∨ key = 127 ∨ key = 8
        · rw [if_pos hbs] at hr
          by_cases hcur : cursor_pos > 0
          · rw [if_pos hcur] at hr
            have hinv2 : ∀ c ∈ input_str.take (cursor_pos - 1) ++ input_str.drop cursor_pos,
                32 ≤ c ∧ c ≤ 126 := by
              intro c hc
              rcases List.mem_append.mp hc with h | h
              · exact hinv c (List.mem_of_mem_take h)
              · exact hinv c (List.mem_of_mem_drop h)
            have hlen2 : (input_str.take (cursor_pos - 1) ++
                input_str.drop cursor_pos).length < max_length := by
              simp only [List.length_append, List.length_take, List.length_drop]
              omega
            exact ih _ _ hinv2 hlen2 r hr
          · rw [if_neg hcur] at hr
            exact ih _ _ hinv hlen r hr
        · rw [if_neg hbs] at hr
          by_cases h260 : key = 260
          · rw [if_pos h260] at hr
            exact ih _ _ hinv hlen r hr
          · rw [if_neg h260] at hr
            by_cases h261 : key = 261
            · rw [if_pos h261] at hr
              exact ih _ _ hinv hlen r hr
            · rw [if_neg h261] at hr
              by_cases hhome : key = 262 ∨ key = 1
              · rw [if_pos hhome] at hr
                exact ih _ _ hinv hlen r hr
              · rw [if_neg hhome] at hr
                by_cases hend : key = 360 ∨ key = 5
                · rw [if_pos hend] at hr
                  exact ih _ _ hinv hlen r hr
                · rw [if_neg hend] at hr
                  by_cases hpr : 32 ≤ key ∧ key ≤ 126
                  · rw [if_pos hpr] at hr
                    by_cases hcap : input_str.length + 1 < max_length
                    · rw [if_pos hcap] at hr
                      have hinv2 : ∀ c ∈ input_str.take cursor_pos ++ [key] ++
                          input_str.drop cursor_pos, 32 ≤ c ∧ c ≤ 126 := by
                        intro c hc
                        rcases List.mem_append.mp hc with h | h
                        · rcases List.mem_append.mp h with h2 | h2
                          · exact hinv c (List.mem_of_mem_take h2)
                          · rw [List.mem_singleton] at h2
                            subst h2
                            exact hpr
                        · exact hinv c (List.mem_of_mem_drop h)
                      have hlen2 : (input_str.take cursor_pos ++ [key] ++
                          input_str.drop cursor_pos).length < max_length := by
                        simp only [List.length_append, List.length_take,
                          List.length_drop, List.length_singleton]
                        omega
                      exact ih _ _ hinv2 hlen2 r hr
                    · rw [if_neg hcap] at hr
                      exact ih _ _ hinv hlen r hr
                  · rw [if_neg hpr] at hr
                    exact ih _ _ hinv hlen r hr

/-- C9.  The modal input routine started on an empty buffer returns
the cancellation signal exactly when the first terminating keypress is
ESC; any committed string consists only of printable ASCII characters
(codes 32-126) and is strictly shorter than the caller-supplied
max_length (every dialog in the program passes 50 or 20, so the
max_length ≥ 1 hypothesis is always met). -/
theorem c9_dialog_input_safe (max_length : Nat) (keys : List Nat)
    (hml : 1 ≤ max_length) (r : Option (List Nat))
    (hr : get_dialog_input max_length keys [] 0 = some r) :
    (r = none ↔ esc_first keys = true) ∧
    (∀ cs, r = some cs → (∀ c ∈ cs, 32 ≤ c ∧ c ≤ 126) ∧ cs.length < max_length) :=
  get_dialog_input_go max_length keys [] 0
    (by intro c hc; exact absurd hc (List.not_mem_nil c)) (by exact hml) r hr

/-- C9 witness: typing a b then Enter at cap 50 commits "ab". -/
theorem c9_dialog_input_safe_witness :
    ((some [97, 98] : Option (List Nat)) = none ↔ esc_first [97, 98, 10] = true) ∧
    (∀ cs, (some [97, 98] : Option (List Nat)) = some cs →
      (∀ c ∈ cs, 32 ≤ c ∧ c ≤ 126) ∧ cs.length < 50) :=
  c9_dialog_input_safe 50 [97, 98, 10] (by decide) (some [97, 98]) (by decide)
